import Mathlib

/-
Verification of the container image transport layer of twopence-provision
(src/python/_twopence/oci.py) against its natural-language specification.

The Python code is shallowly embedded: pure methods become Lean functions,
Python exceptions become `Except PyErr`, and I/O (network, DNS, filesystem,
token exchange) is threaded explicitly as environment parameters.
Python `str` operations are modelled by executable functions over `List Char`
(`pyStartsWith`, `pyEndsWith`, ...), which agree with CPython semantics on
the ASCII inputs this client manipulates.
-/

/-- Parsed `Www-Authenticate` challenge, the payload of the internal
`AuthenticationRequired` exception (oci.py lines 361-363, 423-455).
`realm` and `scope` are the parameters `_urlopen` and `doLoginDocker` read. -/
structure Challenge where
  realm : String
  scope : Option String
  deriving DecidableEq, Repr

/-- Python exceptions raised by the transport layer, as an explicit error type. -/
inductive PyErr where
  | typeError (msg : String)
  | attributeError (msg : String)
  | valueError (msg : String)
  | assertionError
  | imageLoadError (image : String) (reason : String)
  | imageSaveError (msg : String)
  | loginError (msg : String)
  | httpError (code : Nat)
  | authRequired (ch : Challenge)
  | fileNotFound (name : String)
  deriving DecidableEq, Repr

deriving instance DecidableEq for Except

/-- Python `s.startswith(pre)`. -/
def pyStartsWith (s pre : String) : Bool :=
  pre.toList.isPrefixOf s.toList

/-- Python `s.endswith(suf)`. -/
def pyEndsWith (s suf : String) : Bool :=
  suf.toList.isSuffixOf s.toList

/-- Python `s[:-n]` for `0 < n ≤ len(s)`: drop the last `n` characters. -/
def pyDropRight (s : String) (n : Nat) : String :=
  ⟨s.toList.take (s.toList.length - n)⟩

/-- Python `l.split(sep, 1)` for a single-character separator: split at the
first occurrence, `none` when the separator does not occur. -/
def pySplitOnceChar (c : Char) (s : String) : Option (String × String) :=
  match s.toList.span (fun x => x ≠ c) with
  | (_, []) => none
  | (before, _ :: after) => some (⟨before⟩, ⟨after⟩)

/-- Python `name.rsplit(c, 1)` restricted to a single-character separator:
split at the last occurrence, `none` when the separator does not occur. -/
def pyRsplitOnceChar (c : Char) (s : String) : Option (String × String) :=
  match s.toList.reverse.dropWhile (fun x => x ≠ c) with
  | [] => none
  | _ :: beforeRev =>
    some (⟨beforeRev.reverse⟩, ⟨(s.toList.reverse.takeWhile (fun x => x ≠ c)).reverse⟩)

/-- Python `s.strip()`: trim ASCII whitespace on both sides. -/
def pyStrip (s : String) : String :=
  ⟨((s.toList.dropWhile Char.isWhitespace).reverse.dropWhile Char.isWhitespace).reverse⟩

/-- Python `s.strip(chars)` for a single-character argument. -/
def pyStripChar (c : Char) (s : String) : String :=
  ⟨((s.toList.dropWhile (fun x => x = c)).reverse.dropWhile (fun x => x = c)).reverse⟩

/-- Python `s.splitlines()`-style split on the newline character, matching how
`parseVersion` consumes `f.readlines()` line by line. -/
def pySplitNewlinesAux : List Char → List Char → List String
  | [], acc => [⟨acc.reverse⟩]
  | x :: rest, acc =>
    if x = '\n' then ⟨acc.reverse⟩ :: pySplitNewlinesAux rest []
    else pySplitNewlinesAux rest (x :: acc)

/-- Split a file content into lines at newline characters. -/
def pySplitNewlines (s : String) : List String :=
  pySplitNewlinesAux s.toList []

/-- The two media-type vendor tables (oci.py lines 1616-1634). -/
inductive Vendor where
  | docker
  | oci
  deriving DecidableEq, Repr

/-- `VendorDocker.name` / `VendorOCI.name`. -/
def Vendor.vendorName : Vendor → String
  | .docker => "docker"
  | .oci => "oci"

/-- `VendorDocker.separator` / `VendorOCI.separator` (oci.py lines 1618, 1628). -/
def Vendor.separator : Vendor → String
  | .docker => "."
  | .oci => "+"

/-- `mimeTypeImageIndex` for each vendor table (oci.py lines 1620, 1630). -/
def Vendor.mimeTypeImageIndex : Vendor → String
  | .docker => "application/vnd.docker.distribution.manifest.list.v2+json"
  | .oci => "application/vnd.oci.image.index.v1+json"

/-- `mimeTypeManifest` for each vendor table (oci.py lines 1621, 1631). -/
def Vendor.mimeTypeManifest : Vendor → String
  | .docker => "application/vnd.docker.distribution.manifest.v2+json"
  | .oci => "application/vnd.oci.image.manifest.v1+json"

/-- `mimeTypeConfig` for each vendor table (oci.py lines 1622, 1632). -/
def Vendor.mimeTypeConfig : Vendor → String
  | .docker => "application/vnd.docker.container.image.v1+json"
  | .oci => "application/vnd.oci.image.config.v1+json"

/-- `mimeTypeLayer` for each vendor table (oci.py lines 1623, 1633). -/
def Vendor.mimeTypeLayer : Vendor → String
  | .docker => "application/vnd.docker.image.rootfs.diff.tar"
  | .oci => "application/vnd.oci.image.layer.v1.tar"

/-- `mimeTypeLayerExternal` for each vendor table (oci.py lines 1624, 1634). -/
def Vendor.mimeTypeLayerExternal : Vendor → String
  | .docker => "application/vnd.docker.image.rootfs.foreign.diff.tar"
  | .oci => "application/vnd.oci.image.layer.nondistributable.v1.tar"

/-- `MediaType.compressionAlgorithms` (oci.py lines 1636-1639). -/
def compressionAlgorithms : List String := ["gzip", "zstd"]

/-- The parsed state a `MediaType` instance carries after `__init__`:
`baseMIMEType`, `compression`, `vendor` (oci.py lines 1641-1660). -/
structure MediaType where
  baseMIMEType : String
  compression : Option String
  vendor : Option Vendor
  deriving DecidableEq, Repr

/-- `MediaType.__init__(mt)` (oci.py lines 1641-1660): prefix-classify the
vendor, then strip a recognized `separator + compression` suffix.  The loop
over `compressionAlgorithms` tries gzip before zstd and breaks on the first
match; `mt[:-n]` with `n = len(compression) + 1` removes suffix and separator. -/
def MediaType.parse (mt : String) : MediaType :=
  let vendor : Option Vendor :=
    if pyStartsWith mt ("application/vnd.oci.") then some Vendor.oci
    else if pyStartsWith mt ("application/vnd.docker.") then some Vendor.docker
    else none
  match vendor with
  | none => ⟨mt, none, none⟩
  | some v =>
    if pyEndsWith mt (v.separator ++ ("gzip")) then
      ⟨pyDropRight mt (("gzip").length + 1), some ("gzip"), some v⟩
    else if pyEndsWith mt (v.separator ++ ("zstd")) then
      ⟨pyDropRight mt (("zstd").length + 1), some ("zstd"), some v⟩
    else ⟨mt, none, some v⟩

/-- `MediaType.__repr__` (oci.py lines 1662-1666).  With no compression it
returns `baseMIMEType`.  With a compression it executes
`"".join(self.baseMIMEType, self.vendor.separator, self.compression)`, which
passes three positional arguments to `str.join`; `str.join` accepts exactly
one argument, so Python raises `TypeError`, modelled here as an error value. -/
def MediaType.reprCode (m : MediaType) : Except PyErr String :=
  match m.compression with
  | none => .ok m.baseMIMEType
  | some _ => .error (.typeError ("join() takes exactly one argument (3 given)"))

/-- Modelled from the spec: `serialize()` reconstructs the original string
including any compression suffix, `base + separator + compression`.  This is
the behaviour `MediaType.__repr__` (oci.py line 1666) plainly intends; it is
kept separate so the intended round-trip can be compared with `reprCode`. -/
def MediaType.reprIntended (m : MediaType) : String :=
  match m.compression, m.vendor with
  | some c, some v => m.baseMIMEType ++ v.separator ++ c
  | _, _ => m.baseMIMEType

/-- `MediaType.isImageIndex` (oci.py lines 1708-1712): `False` without a
vendor, else compare the base type against the vendor table entry. -/
def MediaType.isImageIndex (m : MediaType) : Bool :=
  match m.vendor with
  | none => false
  | some v => m.baseMIMEType == v.mimeTypeImageIndex

/-- `MediaType.isManifest` (oci.py lines 1714-1718). -/
def MediaType.isManifest (m : MediaType) : Bool :=
  match m.vendor with
  | none => false
  | some v => m.baseMIMEType == v.mimeTypeManifest

/-- `MediaType.isImageLayer` (oci.py lines 1720-1724). -/
def MediaType.isImageLayer (m : MediaType) : Bool :=
  match m.vendor with
  | none => false
  | some v => m.baseMIMEType == v.mimeTypeLayer

/-- `MediaType.isExternalReference` (oci.py lines 1726-1727): unlike the other
three predicates there is no `if not self.vendor` guard, so with
`vendor = None` the attribute access `self.vendor.mimeTypeLayerExternal`
raises `AttributeError`. -/
def MediaType.isExternalReference (m : MediaType) : Except PyErr Bool :=
  match m.vendor with
  | none => .error (.attributeError ("mimeTypeLayerExternal"))
  | some v => .ok (m.baseMIMEType == v.mimeTypeLayerExternal)

/-- `MediaType.makeExternalReference` (oci.py lines 1729-1735):
`assert(self.vendor)`, require a (non-external) layer type, then rewrite the
base type to the vendor's foreign-layer type. -/
def MediaType.makeExternalReference (m : MediaType) : Except PyErr MediaType :=
  match m.vendor with
  | none => .error .assertionError
  | some v =>
    if m.isImageLayer then .ok ⟨v.mimeTypeLayerExternal, m.compression, some v⟩
    else .error (.valueError ("Cannot convert mime type to an external reference layer"))

/-- The attribute table `dir(vendor)` exposes, in `dir()` order (alphabetical:
the five `mimeType*` attributes, then `name`, then `separator`), used by the
reflective `_identifyMIMEType` scan (oci.py lines 1745-1751). -/
def Vendor.attrTable (v : Vendor) : List (String × String) :=
  [("mimeTypeConfig", v.mimeTypeConfig),
   ("mimeTypeImageIndex", v.mimeTypeImageIndex),
   ("mimeTypeLayer", v.mimeTypeLayer),
   ("mimeTypeLayerExternal", v.mimeTypeLayerExternal),
   ("mimeTypeManifest", v.mimeTypeManifest),
   ("name", v.vendorName),
   ("separator", v.separator)]

/-- `MediaType._identifyMIMEType` (oci.py lines 1745-1751): scan the vendor's
attributes for one whose value equals the base type; `none` when no match. -/
def identifyMIMEType (v : Vendor) (base : String) : Option String :=
  ((v.attrTable).find? (fun p => p.2 == base)).map (fun p => p.1)

/-- Python `getattr(vendor, attr)` on the modelled attribute table. -/
def Vendor.getattrTable (v : Vendor) (attr : String) : Option String :=
  ((v.attrTable).find? (fun p => p.1 == attr)).map (fun p => p.2)

/-- `MediaType.changeVendor(vendor)` (oci.py lines 1737-1743).  With
`self.vendor = None`, `_identifyMIMEType` iterates `dir(None)` and returns
`None`, and `getattr(vendor, None)` raises `TypeError`; the same `TypeError`
occurs when the base type matches no attribute of its own vendor table. -/
def MediaType.changeVendor (m : MediaType) (newVendor : Vendor) : Except PyErr MediaType :=
  match m.vendor with
  | none => .error (.typeError ("attribute name must be string"))
  | some v =>
    match identifyMIMEType v m.baseMIMEType with
    | none => .error (.typeError ("attribute name must be string"))
    | some attr =>
      match newVendor.getattrTable attr with
      | none => .error (.attributeError attr)
      | some nt => .ok ⟨nt, m.compression, some newVendor⟩

/-- The `platform` object a manifest descriptor may carry:
`{architecture, os}` (spec section 3; accessed at oci.py lines 213-220, 309-320). -/
structure Platform where
  architecture : String
  os : Option String
  deriving DecidableEq, Repr

/-- `OCIDescriptor` (oci.py lines 227-320), restricted to the JSON fields the
client reads: `mediaType`, `digest`, `size`, `urls`, `platform`.  The instance
also caches `_parsedMediaType = MediaType(mediaType)`; every mutation of the
descriptor rewrites `mediaType` to `repr(_parsedMediaType)`, so the cache
always equals `MediaType.parse mediaType` and is recomputed on demand here. -/
structure Descriptor where
  mediaType : String
  digest : String
  size : Nat
  urls : List String
  platform : Option Platform
  deriving DecidableEq, Repr

/-- The cached `_parsedMediaType` of a descriptor. -/
def Descriptor.parsedMediaType (d : Descriptor) : MediaType :=
  MediaType.parse d.mediaType

/-- `OCIDescriptor.isImageLayer` (oci.py lines 246-247). -/
def Descriptor.isImageLayer (d : Descriptor) : Bool :=
  d.parsedMediaType.isImageLayer

/-- `OCIDescriptor.isCompressed` (oci.py lines 249-250):
`_parsedMediaType.compression is not None`. -/
def Descriptor.isCompressed (d : Descriptor) : Bool :=
  d.parsedMediaType.compression.isSome

/-- `OCIDescriptor.vendor` (oci.py lines 295-296). -/
def Descriptor.vendor (d : Descriptor) : Option Vendor :=
  d.parsedMediaType.vendor

/-- `OCIDescriptor.sameVendor(vendor)` (oci.py lines 298-299). -/
def Descriptor.sameVendor (d : Descriptor) (v : Option Vendor) : Bool :=
  d.vendor == v

/-- `OCIDescriptor.addURL(url)` (oci.py lines 235-238). -/
def Descriptor.addURL (d : Descriptor) (url : String) : Descriptor :=
  { d with urls := d.urls ++ [url] }

/-- A descriptor not being a wildcard: `getattr(mf, 'platform', None)` is not
`None` (oci.py line 213). -/
def Descriptor.isWildcard (d : Descriptor) : Bool :=
  d.platform.isNone

/-- `platform['architecture'] == architecture` guarded by platform presence
(oci.py lines 213-220); `architecture` may be Python `None`. -/
def Descriptor.archMatches (d : Descriptor) (arch : Option String) : Bool :=
  match d.platform with
  | none => false
  | some p => some p.architecture == arch

/-- `OCIDescriptor.makeExternalReference` (oci.py lines 287-289): rewrite the
parsed media type to the vendor's foreign-layer type, then store
`repr(self._parsedMediaType)` back into `mediaType`.  The `repr` call raises
`TypeError` whenever the type still carries a compression suffix
(see `MediaType.reprCode`). -/
def Descriptor.makeExternalReference (d : Descriptor) : Except PyErr Descriptor :=
  match d.parsedMediaType.makeExternalReference with
  | .error e => .error e
  | .ok m =>
    match m.reprCode with
    | .error e => .error e
    | .ok s => .ok { d with mediaType := s }

/-- `Image` (oci.py lines 1528-1546) restricted to what `LayerMap` touches:
the manifest's layer list (for the generation count) and the loader's
`blobURL(img, d).geturl()` function keyed by digest (oci.py line 283). -/
structure Image where
  name : String
  layers : List Descriptor
  blobURLof : String → String

/-- `OCIDescriptor.asExternalReference(img)` (oci.py lines 278-285): deep-copy,
rewrite to an external-reference media type, and append the loader's blob URL. -/
def Descriptor.asExternalReference (img : Image) (d : Descriptor) : Except PyErr Descriptor :=
  match d.makeExternalReference with
  | .error e => .error e
  | .ok r => .ok (r.addURL (img.blobURLof d.digest))

/-- `OCIDescriptor.asVendor(vendor)` (oci.py lines 301-307), with the vendor
argument as `getReference` supplies it (possibly Python `None`, in which case
`changeVendor` ends in `getattr(None, attr)` and raises `AttributeError`).
The media type string is rewritten to `repr` of the changed parse, which
raises `TypeError` if a compression suffix is present. -/
def Descriptor.asVendorOpt (d : Descriptor) (v : Option Vendor) : Except PyErr Descriptor :=
  match v with
  | none => .error (.attributeError ("NoneType object has no vendor attribute"))
  | some newVendor =>
    match d.parsedMediaType.changeVendor newVendor with
    | .error e => .error e
    | .ok m =>
      match m.reprCode with
      | .error e => .error e
      | .ok s => .ok { d with mediaType := s }

/-- `ImageIndex` (oci.py lines 204-223). -/
structure ImageIndex where
  schemaVersion : Nat
  mediaType : Option String
  manifests : List Descriptor
  deriving DecidableEq, Repr

/-- The loop body of `ImageIndex.find` (oci.py lines 210-223), with the
`wildcard` accumulator made explicit: a second descriptor without `platform`
raises `ValueError`; a descriptor whose platform architecture equals the
requested one is returned immediately; at the end the recorded wildcard (or
`None`) is returned. -/
def ImageIndex.findAux (arch : Option String) :
    Option Descriptor → List Descriptor → Except PyErr (Option Descriptor)
  | wc, [] => .ok wc
  | wc, mf :: rest =>
    match mf.platform with
    | none =>
      match wc with
      | some _ => .error (.valueError ("Image index lists more than one descriptor without platform"))
      | none => ImageIndex.findAux arch (some mf) rest
    | some _ =>
      if mf.archMatches arch then .ok (some mf)
      else ImageIndex.findAux arch wc rest

/-- `ImageIndex.find(architecture)` (oci.py lines 210-223). -/
def ImageIndex.find (idx : ImageIndex) (arch : Option String) : Except PyErr (Option Descriptor) :=
  ImageIndex.findAux arch none idx.manifests

/-- `ImageFormat.pickManifestFromIndex` (oci.py lines 584-592).  Note the
source checks `if not desc or not desc.isManifest`: `desc.isManifest` is a
bound method object (no call parentheses), which is always truthy, so the
intended media-type check never rejects a descriptor — the result is exactly
`find`'s result. -/
def ImageFormat.pickManifestFromIndex (idx : ImageIndex) (architecture : String) :
    Except PyErr (Option Descriptor) :=
  match idx.find (some architecture) with
  | .error e => .error e
  | .ok none => .ok none
  | .ok (some d) => .ok (some d)

/-- Number of wildcard (platform-less) descriptors in a manifest list. -/
def wildcardCount (ms : List Descriptor) : Nat :=
  ms.countP (fun d => d.isWildcard)

/-- First descriptor in a list satisfying a predicate (used to state the
characterization of `ImageIndex.find`). -/
def firstSuch (p : Descriptor → Bool) : List Descriptor → Option Descriptor
  | [] => none
  | d :: rest =>
    match p d with
    | true => some d
    | false => firstSuch p rest

/-- `LayerMap.LayerInfo` (oci.py lines 1794-1797) together with the
`reference` attribute `add` attaches (oci.py line 1815). -/
structure LayerInfo where
  generation : Nat
  descriptor : Descriptor
  reference : Descriptor
  deriving DecidableEq, Repr

/-- `LayerMap._dict` (oci.py line 1800): digest-keyed dictionary. -/
abbrev LayerMap := List (String × LayerInfo)

/-- `LayerMap._dict.get(digest)` (oci.py lines 1805-1806). -/
def LayerMap.get : LayerMap → String → Option LayerInfo
  | [], _ => none
  | (k, l) :: rest, digest => if k = digest then some l else LayerMap.get rest digest

/-- `self._dict[digest] = l`: insert or overwrite one dictionary entry. -/
def LayerMap.set : LayerMap → String → LayerInfo → LayerMap
  | [], digest, l => [(digest, l)]
  | (k, old) :: rest, digest, l =>
    if k = digest then (k, l) :: rest else (k, old) :: LayerMap.set rest digest l

/-- `LayerMap.add(generation, d, reference)` (oci.py lines 1808-1818): when the
digest is already mapped, `assert(generation < l.generation)`; then store a new
`LayerInfo` under the digest. -/
def LayerMap.add (m : LayerMap) (generation : Nat) (d : Descriptor) (reference : Descriptor) :
    Except PyErr LayerMap :=
  match m.get d.digest with
  | some l =>
    if generation < l.generation then .ok (m.set d.digest ⟨generation, d, reference⟩)
    else .error .assertionError
  | none => .ok (m.set d.digest ⟨generation, d, reference⟩)

/-- The `if l and l.generation <= generation` early-return guard of
`addReferencedLayer` (oci.py lines 1847-1850). -/
def LayerMap.skipExisting (m : LayerMap) (digest : String) (generation : Nat) : Bool :=
  match m.get digest with
  | some l => decide (l.generation ≤ generation)
  | none => false

/-- `LayerMap.addReferencedLayer(img, d)` (oci.py lines 1833-1866).  The
generation is the layer count of the image.  Non-layer media types are
ignored; existing records with a generation not above the new one are kept.
Otherwise an external reference is built and stored, and if the layer is
compressed the digest of its uncompressed form — computed by
`d.asUncompressed(img)`, which reads and hashes the blob and is modelled by
the `uncomp` environment — is indexed under the same generation and
reference; an `ImageLoadError` from that read is caught and ignored. -/
def LayerMap.addReferencedLayer (uncomp : Descriptor → Except PyErr Descriptor)
    (m : LayerMap) (img : Image) (d : Descriptor) : Except PyErr LayerMap :=
  if d.isImageLayer then
    if m.skipExisting d.digest img.layers.length then .ok m
    else
      match Descriptor.asExternalReference img d with
      | .error e => .error e
      | .ok refDest =>
        match m.add img.layers.length d refDest with
        | .error e => .error e
        | .ok m1 =>
          if d.isCompressed then
            match uncomp d with
            | .error (.imageLoadError _ _) => .ok m1
            | .error e => .error e
            | .ok newDesc => m1.add img.layers.length newDesc refDest
          else .ok m1
  else .ok m

/-- `LayerMap.getReference(d)` (oci.py lines 1868-1885): look up by digest;
when the stored reference's vendor differs from the caller descriptor's
vendor, rewrite it with `asVendor` before returning. -/
def LayerMap.getReference (m : LayerMap) (d : Descriptor) : Except PyErr (Option Descriptor) :=
  match m.get d.digest with
  | none => .ok none
  | some l =>
    if l.reference.sameVendor d.vendor then .ok (some l.reference)
    else
      match l.reference.asVendorOpt d.vendor with
      | .error e => .error e
      | .ok r => .ok (some r)

/-- Keystore credentials (oci.py lines 340-344) plus the `url` attribute
`getCredentials` sets (oci.py line 738). -/
structure Credentials where
  user : String
  password : String
  url : Option String
  deriving DecidableEq, Repr

/-- `RegistryInfo` (oci.py lines 741-745). -/
structure RegistryInfo where
  realm : String
  authUrl : String
  credUrl : String
  deriving DecidableEq, Repr

/-- `RegistryInfo.forHost(realm)` (oci.py lines 747-759): only the two
docker.io realms are known; anything else gives `None`. -/
def RegistryInfo.forHost (realm : String) : Option RegistryInfo :=
  if realm == "docker.io" then
    some ⟨realm, "https://hub.docker.com/v2/users/login", "https://index.docker.io/v1/"⟩
  else if realm == "https://auth.docker.io/token" then
    some ⟨realm, "https://auth.docker.io/token", "https://index.docker.io/v1/"⟩
  else none

/-- `ImageFormat.getCredentials(realm)` (oci.py lines 715-739).  The keystore
is modelled as an optional lookup function (Python: `self._keystore` may be
unset).  An empty realm, an unknown realm, a missing keystore, or a failed
lookup under both the `cred_url` and the `auth_url` yield `None`; otherwise
the credentials are returned with their `url` set to the registry's auth URL. -/
def ImageFormat.getCredentialsM (keystore : Option (String → Option Credentials))
    (realm : String) : Option Credentials :=
  if realm.toList = [] then none
  else
    match RegistryInfo.forHost realm with
    | none => none
    | some reg =>
      match keystore with
      | none => none
      | some ks =>
        match (match ks reg.credUrl with
               | some c => some c
               | none => ks reg.authUrl) with
        | none => none
        | some c => some { c with url := some reg.authUrl }

/-- Outcome of one physical HTTP request to the registry, after the installed
`BearerAuthHandler` has processed any 401: either a normal (2xx) response, an
`AuthenticationRequired` carrying a parsed Bearer challenge (oci.py line 492),
or an ordinary HTTP error (non-Bearer 401, Bearer challenge with a fatal
`error` parameter, or any other failing status). -/
inductive NetOutcome where
  | success
  | bearer401 (ch : Challenge)
  | httpFail (code : Nat)
  deriving DecidableEq, Repr

/-- Observable effort of one `_urlopen` call: how many registry requests were
issued for the logical operation and how many token exchanges
(`doLoginDocker` GETs against the auth realm) were performed. -/
structure Trace where
  requests : Nat
  tokenExchanges : Nat
  deriving DecidableEq, Repr

/-- The authentication block of `_urlopen` (oci.py lines 1177-1186) run after
an `AuthenticationRequired` was caught: look up credentials for the realm;
with no credentials, `doLoginDocker` performs an anonymous token exchange;
with credentials, the exchange happens only for `https://auth.docker.io`
realms — otherwise the code builds `ImageSaveError(self.path, ...)`, and
evaluating `self.path` (an attribute never assigned on
`ImageFormatDockerRegistry`) raises `AttributeError` with no exchange.
`doLoginDocker` (oci.py lines 942-979) is network I/O and is modelled by the
`loginEnv` environment; the second component counts its token-exchange GETs. -/
def ImageFormatDockerRegistry.authenticateStep
    (keystore : Option (String → Option Credentials))
    (loginEnv : Challenge → Option Credentials → Except PyErr Credentials)
    (ch : Challenge) : Except PyErr Credentials × Nat :=
  match ImageFormat.getCredentialsM keystore ch.realm with
  | none => (loginEnv ch none, 1)
  | some c =>
    if pyStartsWith ch.realm ("https://auth.docker.io") then (loginEnv ch (some c), 1)
    else (.error (.attributeError ("path")), 0)

/-- The single retry of the original request after a successful
authentication (oci.py lines 1188-1195).  This second
`urllib.request.urlopen` is NOT wrapped in `try ... except
AuthenticationRequired`, so a second Bearer challenge surfaces as the raw
`AuthenticationRequired` error.  `n` is the token-exchange count of the
authentication block. -/
def ImageFormatDockerRegistry.retryStep (net : Nat → NetOutcome) (n : Nat) :
    Except PyErr Unit × Trace :=
  match net 1 with
  | .success => (.ok (), ⟨2, n⟩)
  | .httpFail code => (.error (.httpError code), ⟨2, n⟩)
  | .bearer401 ch2 => (.error (.authRequired ch2), ⟨2, n⟩)

/-- The handling of an `AuthenticationRequired` caught from the first request
(oci.py lines 1174-1195): authenticate, then retry once; an error from the
authentication block ends the operation after the single original request. -/
def ImageFormatDockerRegistry.afterChallenge
    (keystore : Option (String → Option Credentials))
    (loginEnv : Challenge → Option Credentials → Except PyErr Credentials)
    (net : Nat → NetOutcome) (ch : Challenge) : Except PyErr Unit × Trace :=
  let a := ImageFormatDockerRegistry.authenticateStep keystore loginEnv ch
  match a.1 with
  | .error e => (.error e, ⟨1, a.2⟩)
  | .ok _ => ImageFormatDockerRegistry.retryStep net a.2

/-- `ImageFormatDockerRegistry._urlopen` (oci.py lines 1157-1195), with the
network modelled as a map from the per-operation request counter to the
request's outcome.  The first `urlopen` sits inside
`try ... except AuthenticationRequired`; only a Bearer challenge from that
first request triggers the authentication-and-retry path. -/
def ImageFormatDockerRegistry.urlopenModel
    (keystore : Option (String → Option Credentials))
    (loginEnv : Challenge → Option Credentials → Except PyErr Credentials)
    (net : Nat → NetOutcome) : Except PyErr Unit × Trace :=
  match net 0 with
  | .success => (.ok (), ⟨1, 0⟩)
  | .httpFail code => (.error (.httpError code), ⟨1, 0⟩)
  | .bearer401 ch => ImageFormatDockerRegistry.afterChallenge keystore loginEnv net ch

/-- `ImageBlobCache.CacheObject.open("rb")` (oci.py lines 1501-1508): `None`
when the cache file does not exist, otherwise a handle on its bytes. -/
def CacheObject.openRead (file : Option (List Nat)) : Option (List Nat) :=
  file

/-- `ImageBlobCache.CacheObject.put(resp)` (oci.py lines 1510-1519): drain the
response body into the cache file. -/
def CacheObject.put (respBody : List Nat) : Option (List Nat) :=
  some respBody

/-- Result of one `download` call through a cache handle: the bytes returned
to the caller, the cache file contents afterwards, and the number of network
GET requests performed. -/
structure DownloadOutcome where
  body : List Nat
  cacheFile : Option (List Nat)
  networkGETs : Nat
  deriving DecidableEq, Repr

/-- `ImageFormatDockerRegistry.download` (oci.py lines 1011-1050) for a blob
fetch with a cache handle attached (`openBlob`, oci.py lines 897-905): when
`cache.open(mode)` yields a handle the cached bytes are returned with no
network request; otherwise one GET is performed, `cache.put(resp)` stores its
body, and the result is re-opened from the cache. -/
def ImageFormatDockerRegistry.download (cacheFile : Option (List Nat)) (net : List Nat) :
    DownloadOutcome :=
  match CacheObject.openRead cacheFile with
  | some data => ⟨data, cacheFile, 0⟩
  | none =>
    let newFile := CacheObject.put net
    match CacheObject.openRead newFile with
    | some data => ⟨data, newFile, 1⟩
    | none => ⟨[], newFile, 1⟩

/-- The parts of a `urllib.parse.urlparse` result that `tryThisURL` and
`ImageReference.parse` read: `netloc` and `path`. -/
structure URLParts where
  netloc : String
  path : String
  deriving DecidableEq, Repr

/-- Whether a character may appear in a URL scheme (RFC 3986 / CPython
`urllib.parse`): letters, digits, `+`, `-`, `.`. -/
def isSchemeChar (c : Char) : Bool :=
  c.isAlphanum || c = '+' || c = '-' || c = '.'

/-- Split `//rest` into netloc (up to the next `/`) and path. -/
def splitNetloc (cs : List Char) : String × String :=
  match cs.span (fun c => c ≠ '/') with
  | (netloc, path) => (⟨netloc⟩, ⟨path⟩)

/-- `urllib.parse.urlparse(s, scheme='https')` restricted to the fields read
here: a string starting with `//` or with `scheme://` (non-empty scheme of
scheme characters starting with a letter) carries a netloc, everything else
parses with an empty netloc and the whole string as path. -/
def urlparseNetlocPath (s : String) : String × String :=
  let cs := s.toList
  if cs.take 2 = ['/', '/'] then splitNetloc (cs.drop 2)
  else
    match cs.span (fun c => c ≠ ':') with
    | (before, _ :: rest) =>
      if before ≠ [] && before.all isSchemeChar &&
          (before.headD ' ').isAlpha && rest.take 2 = ['/', '/'] then
        splitNetloc (rest.drop 2)
      else ("", s)
    | (_, []) => ("", s)

/-- `ImageReference.tryThisURL(path)` (oci.py lines 89-106): parse the string;
an empty netloc or a netloc that does not resolve in DNS
(`socket.gethostbyname`, modelled by the `resolves` environment) gives `None`. -/
def ImageReference.tryThisURL (resolves : String → Bool) (path : String) : Option URLParts :=
  match urlparseNetlocPath path with
  | (netloc, rest) =>
    if netloc.toList = [] then none
    else if resolves netloc then some ⟨netloc, rest⟩
    else none

/-- `ImageFormatFactory.defaultRegistryURL` (oci.py line 1466). -/
def ImageFormatFactory.defaultRegistryURL : String :=
  "https://registry.opensuse.org"

/-- `ImageReference.guessURL(path)` (oci.py lines 76-87): try the raw string,
then `"//" + path`, then `defaultRegistryURL + "/" + path`; the first variant
with a resolvable host wins, otherwise `ValueError`. -/
def ImageReference.guessURL (resolves : String → Bool) (path : String) : Except PyErr URLParts :=
  match ImageReference.tryThisURL resolves path with
  | some u => .ok u
  | none =>
    match ImageReference.tryThisURL resolves (("//") ++ path) with
    | some u => .ok u
    | none =>
      match ImageReference.tryThisURL resolves
          (ImageFormatFactory.defaultRegistryURL ++ ("/") ++ path) with
      | some u => .ok u
      | none => .error (.valueError ("Cannot parse registry image name"))

/-- The reference value object (spec section 3). -/
structure ImageReference where
  registry : String
  name : String
  tag : String
  architecture : String
  deriving DecidableEq, Repr

/-- `ImageReference.__init__(registry, name)` (oci.py lines 40-51):
`registry or "localhost"`; if the name contains `:`, split at the LAST colon
into name and tag (`rsplit(':', maxsplit=1)`), else the tag is `"latest"`;
finally the name is stripped of leading and trailing slashes.  The registry
argument is an `Option` to model a Python `None`, and the empty string is
falsy. -/
def ImageReference.init (registry : Option String) (name : String) : ImageReference :=
  let reg :=
    match registry with
    | none => "localhost"
    | some r => if r.toList = [] then "localhost" else r
  match pyRsplitOnceChar ':' name with
  | some (n, t) => ⟨reg, pyStripChar '/' n, t, "amd64"⟩
  | none => ⟨reg, pyStripChar '/' name, "latest", "amd64"⟩

/-- `ImageReference.parse(path)` (oci.py lines 70-74): guess the URL and build
the reference from its netloc and path. -/
def ImageReference.parse (resolves : String → Bool) (path : String) :
    Except PyErr ImageReference :=
  match ImageReference.guessURL resolves path with
  | .error e => .error e
  | .ok u => .ok (ImageReference.init (some u.netloc) u.path)

/-- The fields of a `manifest.json` that `parseManifest` and the manifest
handlers inspect: whether a `mediaType` key is present (and its value), the
`schemaVersion` value if present, and whether `config` / `layers` keys occur
(they are keyword arguments of `ImageManifestV2.__init__` but not of
`ImageManifestV1.__init__`). -/
structure ManifestJSON where
  mediaType : Option String
  schemaVersion : Option Nat
  hasConfig : Bool
  hasLayers : Bool
  deriving DecidableEq, Repr

/-- The two manifest handler classes a `MediaType.Validator` can select
(oci.py lines 594-597): `ImageManifestV1` (the `defaultHandler`, used when the
JSON has no media type) and `ImageManifestV2` (register for both vendors'
manifest media types). -/
inductive ManifestHandler where
  | v1
  | v2
  deriving DecidableEq, Repr

/-- `validator.acceptMediaTypes('Manifest', ImageManifestV2)` registers both
vendors' manifest media types, in `mimeTypesFor` order: docker, then OCI
(oci.py lines 596, 1668-1674). -/
def manifestValidatorHandlers : List (String × ManifestHandler) :=
  [(Vendor.docker.mimeTypeManifest, .v2), (Vendor.oci.mimeTypeManifest, .v2)]

/-- `MediaType.Validator.validateJSON(data)` (oci.py lines 1685-1698): a
missing media type selects the default handler; a registered media type
selects its handler; anything else raises `ValueError`. -/
def Validator.validate (handlers : List (String × ManifestHandler))
    (defaultHandler : Option ManifestHandler) (mediaType : Option String) :
    Except PyErr ManifestHandler :=
  match mediaType with
  | none =>
    match defaultHandler with
    | some h => .ok h
    | none => .error (.valueError ("JSON contains unexpected mediaType"))
  | some mt =>
    match handlers.find? (fun p => p.1 == mt) with
    | some p => .ok p.2
    | none => .error (.valueError ("JSON contains unexpected mediaType"))

/-- `handler(**data)` for the chosen manifest class, returning the
`schemaVersion` of the constructed object (default 1 for both classes).
`ImageManifestV1.__init__` has no `mediaType`, `config` or `layers`
parameters, so passing a JSON carrying those keys to it raises `TypeError`. -/
def constructManifest (h : ManifestHandler) (mj : ManifestJSON) : Except PyErr Nat :=
  match h with
  | .v2 => .ok (mj.schemaVersion.getD 1)
  | .v1 =>
    if mj.hasConfig || mj.hasLayers || mj.mediaType.isSome then
      .error (.typeError ("unexpected keyword argument"))
    else .ok (mj.schemaVersion.getD 1)

/-- `ImageFormat.parseManifest(f)` (oci.py lines 594-601): build a validator
whose DEFAULT handler is `ImageManifestV1` and whose registered manifest
media types map to `ImageManifestV2`, construct the selected handler, and
reject any result whose `schemaVersion` is not 2. -/
def ImageFormat.parseManifestBody (mj : ManifestJSON) : Except PyErr Nat :=
  match Validator.validate manifestValidatorHandlers (some ManifestHandler.v1) mj.mediaType with
  | .error e => .error e
  | .ok h =>
    match constructManifest h mj with
    | .error e => .error e
    | .ok sv =>
      if sv ≠ 2 then .error (.valueError ("Unexpected manifest schemaVersion"))
      else .ok sv

/-- The parameter names of `ImageFormat.parseManifest` after `self`
(oci.py line 594: `def parseManifest(self, f)`). -/
def parseManifestParamNames : List String := ["f"]

/-- A Python call of `parseManifest` with extra keyword arguments: every
keyword must name a declared parameter, otherwise the call raises
`TypeError: parseManifest() got an unexpected keyword argument` before the
body runs. -/
def ImageFormat.callParseManifest (kwargs : List String) (mj : ManifestJSON) :
    Except PyErr Nat :=
  if kwargs.all (fun k => parseManifestParamNames.contains k) then
    ImageFormat.parseManifestBody mj
  else .error (.typeError ("parseManifest() got an unexpected keyword argument"))

/-- One pass of the `parseVersion` loop (oci.py lines 1237-1250) over the
stripped lines of the `version` file, carrying the `version` variable: empty
lines are skipped; a line without `:` fails tuple unpacking (`ValueError`); an
unknown header is skipped; a second `Directory Transport Version` header after
a truthy (non-empty) recorded value raises the duplicate-header
`ImageLoadError`; otherwise the stripped value is recorded. -/
def ImageFormatDir.parseVersionLines : List String → Option String → Except PyErr (Option String)
  | [], acc => .ok acc
  | l :: rest, acc =>
    let l := pyStrip l
    if l.toList = [] then ImageFormatDir.parseVersionLines rest acc
    else
      match pySplitOnceChar ':' l with
      | none => .error (.valueError ("not enough values to unpack"))
      | some (header, value) =>
        if header ≠ "Directory Transport Version" then
          ImageFormatDir.parseVersionLines rest acc
        else
          match acc with
          | some v =>
            if v.toList = [] then ImageFormatDir.parseVersionLines rest (some (pyStrip value))
            else .error (.imageLoadError ("dir") ("version file contains duplicate header"))
          | none => ImageFormatDir.parseVersionLines rest (some (pyStrip value))

/-- `ImageFormatDir.parseVersion(f)` (oci.py lines 1234-1258): read the lines,
require exactly one `Directory Transport Version` header whose value is
`"1.1"`. -/
def ImageFormatDir.parseVersion (content : String) : Except PyErr String :=
  match ImageFormatDir.parseVersionLines (pySplitNewlines content) none with
  | .error e => .error e
  | .ok none => .error (.imageLoadError ("dir") ("No Directory Transport Version header in version file"))
  | .ok (some ver) =>
    if ver ≠ "1.1" then
      .error (.imageLoadError ("dir") ("Incompatible Directory Transport Version in version file"))
    else .ok ver

/-- The on-disk state of a directory transport that `load` reads: the
`version` file and the `manifest.json` file (absent files raise
`FileNotFoundError` from `open`). -/
structure DirState where
  versionFile : Option String
  manifestJson : Option ManifestJSON
  deriving DecidableEq, Repr

/-- `ImageFormatDir.load()` (oci.py lines 1220-1232): parse the `version`
file, then call `self.parseManifest(f, missingMediaTypeOK = True)`.
`ImageFormatDir` does not override `parseManifest`, and the inherited
`ImageFormat.parseManifest(self, f)` (oci.py line 594) declares no
`missingMediaTypeOK` parameter, so this call raises `TypeError` before any
manifest parsing; the result value (on the unreachable success path, the
parsed manifest's schemaVersion) is never produced. -/
def ImageFormatDir.loadModel (dir : DirState) : Except PyErr Nat :=
  match dir.versionFile with
  | none => .error (.fileNotFound ("version"))
  | some vf =>
    match ImageFormatDir.parseVersion vf with
    | .error e => .error e
    | .ok _ =>
      match dir.manifestJson with
      | none => .error (.fileNotFound ("manifest.json"))
      | some mj => ImageFormat.callParseManifest [("missingMediaTypeOK")] mj

/-- Instance attributes assigned by `ImageFormat.__init__` (oci.py
lines 552-556). -/
def imageFormatInitAttrs : List String := ["_cache", "architecture", "_keystore"]

/-- Instance attributes assigned by `ImageFormatDockerRegistry.__init__`
(oci.py lines 786-794), including those of the superclass constructor. -/
def registryInitAttrs : List String :=
  imageFormatInitAttrs ++ ["key", "creds", "url"]

/-- The methods of `ImageFormat` / `ImageFormatDockerRegistry` that assign
instance attributes after construction: the three setters (oci.py
lines 558-565) and the two login paths, which assign `self.creds` (oci.py
lines 838, 979). -/
inductive RegistrySetter where
  | setArchitecture
  | setCacheDir
  | setKeystore
  | login
  | doLoginDocker
  deriving DecidableEq, Repr

/-- The instance attributes each post-construction method assigns. -/
def RegistrySetter.assigns : RegistrySetter → List String
  | .setArchitecture => ["architecture"]
  | .setCacheDir => ["_cache"]
  | .setKeystore => ["_keystore"]
  | .login => ["creds"]
  | .doLoginDocker => ["creds"]

/-- The attribute set of an `ImageFormatDockerRegistry` instance after
construction and any sequence of attribute-assigning method calls. -/
def registryAttrsAfter (calls : List RegistrySetter) : List String :=
  registryInitAttrs ++ (calls.map RegistrySetter.assigns).flatten

/-- The prefix of `ImageFormatDockerRegistry.load()` (oci.py lines 866-868)
up to the first network access: line 867 reads `self.name`, a class property
that dereferences the instance attribute `key`; line 868 evaluates
`self.version or "latest"`, reading the instance attribute `version` (the
class defines neither a `version` attribute nor a property of that name).  A
missing attribute raises `AttributeError`.  The second component counts
manifest requests issued; the first request (`openURL`, line 870) only
happens once both attribute reads succeed. -/
def ImageFormatDockerRegistry.loadModel (attrs : List String) : Except PyErr Unit × Nat :=
  if ("key") ∈ attrs then
    if ("version") ∈ attrs then (.ok (), 1)
    else (.error (.attributeError ("version")), 0)
  else (.error (.attributeError ("key")), 0)

/-- The ten canonical media type strings of the two vendor tables, without
compression suffixes. -/
def plainVendorMediaTypes : List String :=
  [Vendor.docker.mimeTypeImageIndex, Vendor.docker.mimeTypeManifest,
   Vendor.docker.mimeTypeConfig, Vendor.docker.mimeTypeLayer,
   Vendor.docker.mimeTypeLayerExternal,
   Vendor.oci.mimeTypeImageIndex, Vendor.oci.mimeTypeManifest,
   Vendor.oci.mimeTypeConfig, Vendor.oci.mimeTypeLayer,
   Vendor.oci.mimeTypeLayerExternal]

/-- The vendor-table layer types carrying each recognized compression suffix
(`separator + gzip` and `separator + zstd`). -/
def compressedVendorMediaTypes : List String :=
  [Vendor.docker.mimeTypeLayer ++ (".gzip"), Vendor.docker.mimeTypeLayer ++ (".zstd"),
   Vendor.docker.mimeTypeLayerExternal ++ (".gzip"),
   Vendor.docker.mimeTypeLayerExternal ++ (".zstd"),
   Vendor.oci.mimeTypeLayer ++ ("+gzip"), Vendor.oci.mimeTypeLayer ++ ("+zstd"),
   Vendor.oci.mimeTypeLayerExternal ++ ("+gzip"),
   Vendor.oci.mimeTypeLayerExternal ++ ("+zstd")]

/-- The `TypeError` message of `str.join` applied to three positional
arguments. -/
def joinTypeErrorMsg : String := "join() takes exactly one argument (3 given)"

/-- A manifest descriptor for a given digest and platform architecture. -/
def manifestDescFor (dg arch : String) : Descriptor :=
  ⟨Vendor.oci.mimeTypeManifest, dg, 0, [], some ⟨arch, none⟩⟩

/-- A wildcard manifest descriptor (no `platform`). -/
def wildcardDescFor (dg : String) : Descriptor :=
  ⟨Vendor.oci.mimeTypeManifest, dg, 0, [], none⟩

/-- Example Bearer challenge from a non-docker.io registry. -/
def exampleChallenge : Challenge :=
  ⟨"https://auth.example/token", some ("repository:x:pull")⟩

/-- Example Bearer challenge returned on the retried request. -/
def exampleChallenge2 : Challenge :=
  ⟨"https://auth.example/token", some ("repository:x:push")⟩

/-- A login environment whose token exchange always succeeds. -/
def loginAlwaysOk : Challenge → Option Credentials → Except PyErr Credentials :=
  fun _ _ => .ok ⟨"anon", "", none⟩

/-- A network schedule answering every request with a Bearer challenge: the
first request gets `exampleChallenge`, the retry gets `exampleChallenge2`. -/
def netDouble401 : Nat → NetOutcome :=
  fun n => if n = 0 then .bearer401 exampleChallenge else .bearer401 exampleChallenge2

/-- An uncompressed OCI layer descriptor; `exampleLayerB` shares its digest. -/
def exampleLayerA : Descriptor :=
  ⟨Vendor.oci.mimeTypeLayer, "sha256:0a0a", 64, [], none⟩

/-- The same blob digest as seen in a second, larger image. -/
def exampleLayerB : Descriptor :=
  ⟨Vendor.oci.mimeTypeLayer, "sha256:0a0a", 64, [], none⟩

/-- A one-layer image containing `exampleLayerA` (generation 1). -/
def exampleImageA : Image :=
  ⟨"imga", [exampleLayerA], fun dg => ("docker://rega/a/blobs/") ++ dg⟩

/-- A two-layer image containing `exampleLayerB` (generation 2). -/
def exampleImageB : Image :=
  ⟨"imgb", [exampleLayerB, exampleLayerB], fun dg => ("docker://regb/b/blobs/") ++ dg⟩

/-- An `asUncompressed` environment that always fails with `ImageLoadError`. -/
def uncompFails : Descriptor → Except PyErr Descriptor :=
  fun _ => .error (.imageLoadError ("img") ("cannot read blob"))

/-- A DNS oracle under which `myregistry.example.com` and the default
registry resolve but the bare name `app` does not. -/
def exampleDNS : String → Bool :=
  fun h => h == "myregistry.example.com" || h == "registry.opensuse.org"

/-- The tag-splitting invariant of `ImageReference.__init__`: the stored tag
is exactly the segment after the LAST colon of the raw name (so it contains
no colon itself, and name plus colon plus tag reassembles the raw name), and
a colon-free raw name gets the tag `latest`; the stored name is the remaining
prefix with slashes stripped. -/
def tagSplitInvariant (r : ImageReference) (rawName : String) : Prop :=
  (':' ∉ r.tag.toList) ∧
  (match pyRsplitOnceChar ':' rawName with
   | some (n, t) =>
     r.name = pyStripChar '/' n ∧ r.tag = t ∧
     n.toList ++ ':' :: t.toList = rawName.toList
   | none => r.name = pyStripChar '/' rawName ∧ r.tag = "latest")

/-- The external reference `asExternalReference` builds for `exampleLayerA`
in `exampleImageA`. -/
def exampleExternalRef : Descriptor :=
  ⟨"application/vnd.oci.image.layer.nondistributable.v1.tar", "sha256:0a0a", 64,
   ["docker://rega/a/blobs/sha256:0a0a"], none⟩

/-- Claim C1: For every media type string in either vendor table, serializing
the parse result reproduces the original string.  This holds for the plain
table entries, but for every type with a recognized compression suffix the
source `__repr__` executes `"".join(baseMIMEType, separator, compression)` —
three positional arguments to `str.join` — and raises `TypeError` instead of
returning `base + separator + compression`; the intended serialization
(`reprIntended`) does round-trip.  The conjuncts evaluate the code on all
table entries and on the concrete failing input
`application/vnd.oci.image.layer.v1.tar+gzip`. -/
theorem mediaType_repr_roundtrip_bug :
    (plainVendorMediaTypes.all
      (fun mt => MediaType.reprCode (MediaType.parse mt) == Except.ok mt)) = true ∧
    (compressedVendorMediaTypes.all
      (fun mt => (MediaType.reprIntended (MediaType.parse mt) == mt) &&
        (MediaType.reprCode (MediaType.parse mt) ==
          Except.error (PyErr.typeError joinTypeErrorMsg)))) = true ∧
    MediaType.parse (Vendor.oci.mimeTypeLayer ++ ("+gzip")) =
      ⟨Vendor.oci.mimeTypeLayer, some ("gzip"), some Vendor.oci⟩ ∧
    MediaType.reprCode (MediaType.parse (Vendor.oci.mimeTypeLayer ++ ("+gzip"))) =
      .error (.typeError joinTypeErrorMsg) := by
  exact ⟨by decide, by decide, by decide, by decide⟩

/-- Claim C10: media type strings outside both vendor tables parse with
`vendor = none`; on such a value `isImageIndex`, `isManifest` and
`isImageLayer` return `False`, but `isExternalReference` dereferences
`self.vendor` without a guard and raises `AttributeError` instead of
returning `False`. -/
theorem unknownVendor_classification (mt : String)
    (h1 : pyStartsWith mt ("application/vnd.oci.") = false)
    (h2 : pyStartsWith mt ("application/vnd.docker.") = false) :
    (MediaType.parse mt).vendor = none ∧
    (MediaType.parse mt).isImageIndex = false ∧
    (MediaType.parse mt).isManifest = false ∧
    (MediaType.parse mt).isImageLayer = false ∧
    (MediaType.parse mt).isExternalReference =
      .error (.attributeError ("mimeTypeLayerExternal")) := by
  have hp : MediaType.parse mt = ⟨mt, none, none⟩ := by
    simp [MediaType.parse, h1, h2]
  rw [hp]
  exact ⟨rfl, rfl, rfl, rfl, rfl⟩

/-- Witness for `unknownVendor_classification` at the concrete media type
`text/plain`. -/
theorem unknownVendor_classification_witness :
    (MediaType.parse ("text/plain")).isExternalReference =
      .error (.attributeError ("mimeTypeLayerExternal")) :=
  (unknownVendor_classification ("text/plain") (by decide) (by decide)).2.2.2.2

/-- Claim C9: no constructor or attribute-assigning method of
`ImageFormatDockerRegistry` ever assigns `version`, so for every reachable
attribute state, `load()` raises `AttributeError` at `self.version`
(oci.py line 868) with zero manifest requests issued. -/
theorem registryLoad_attributeError (calls : List RegistrySetter) :
    ("version") ∉ registryAttrsAfter calls ∧
    ImageFormatDockerRegistry.loadModel (registryAttrsAfter calls) =
      (.error (.attributeError ("version")), 0) := by
  have hv : ("version") ∉ registryAttrsAfter calls := by
    intro h
    rcases List.mem_append.1 h with h | h
    · revert h
      decide
    · obtain ⟨l, hl, hmem⟩ := List.mem_flatten.1 h
      obtain ⟨s, _, rfl⟩ := List.mem_map.1 hl
      cases s <;> exact absurd hmem (by decide)
  have hkey : ("key") ∈ registryAttrsAfter calls :=
    List.mem_append.2 (Or.inl (by decide))
  refine ⟨hv, ?_⟩
  unfold ImageFormatDockerRegistry.loadModel
  rw [if_pos hkey, if_neg hv]

/-- Claim C5: with a blob cache attached, a cache hit is served from the
cache file with zero network GETs; a cache miss performs exactly one GET
whose bytes populate the cache; and a second fetch of the same digest is a
hit returning byte-identical content, for one GET in total. -/
theorem blobCache_idempotence (st : Option (List Nat)) (net net2 : List Nat) :
    (∀ d, st = some d → ImageFormatDockerRegistry.download st net = ⟨d, st, 0⟩) ∧
    (st = none → ImageFormatDockerRegistry.download st net = ⟨net, some net, 1⟩) ∧
    (st = none →
      (ImageFormatDockerRegistry.download
        (ImageFormatDockerRegistry.download st net).cacheFile net2).networkGETs = 0 ∧
      (ImageFormatDockerRegistry.download
        (ImageFormatDockerRegistry.download st net).cacheFile net2).body =
        (ImageFormatDockerRegistry.download st net).body ∧
      (ImageFormatDockerRegistry.download st net).networkGETs +
        (ImageFormatDockerRegistry.download
          (ImageFormatDockerRegistry.download st net).cacheFile net2).networkGETs = 1) := by
  cases st <;>
    simp [ImageFormatDockerRegistry.download, CacheObject.openRead, CacheObject.put]

/-- Witness for `blobCache_idempotence`: two fetches of a digest starting
from an empty cache perform one GET and return identical bytes. -/
theorem blobCache_idempotence_witness :
    ImageFormatDockerRegistry.download none [7, 7, 3] = ⟨[7, 7, 3], some [7, 7, 3], 1⟩ ∧
    (ImageFormatDockerRegistry.download
      (ImageFormatDockerRegistry.download none [7, 7, 3]).cacheFile [9]).networkGETs = 0 := by
  have h := blobCache_idempotence none [7, 7, 3] [9]
  exact ⟨h.2.1 rfl, (h.2.2 rfl).1⟩

/-- Token exchanges per `_urlopen` authentication block: at most one
`doLoginDocker` GET. -/
theorem authenticateStep_exchanges_le_one
    (ks : Option (String → Option Credentials))
    (loginEnv : Challenge → Option Credentials → Except PyErr Credentials)
    (ch : Challenge) :
    (ImageFormatDockerRegistry.authenticateStep ks loginEnv ch).2 ≤ 1 := by
  unfold ImageFormatDockerRegistry.authenticateStep
  cases ImageFormat.getCredentialsM ks ch.realm with
  | none => exact Nat.le_refl 1
  | some c =>
    by_cases h : pyStartsWith ch.realm ("https://auth.docker.io") = true
    · simp [h]
    · simp [h]

/-- Equation lemma: a successful first request finishes after one request. -/
theorem urlopen_eq_success
    (ks : Option (String → Option Credentials))
    (loginEnv : Challenge → Option Credentials → Except PyErr Credentials)
    (net : Nat → NetOutcome) (h : net 0 = .success) :
    ImageFormatDockerRegistry.urlopenModel ks loginEnv net = (.ok (), ⟨1, 0⟩) := by
  unfold ImageFormatDockerRegistry.urlopenModel
  rw [h]

/-- Equation lemma: a first request failing with an ordinary HTTP error is
surfaced unchanged after one request. -/
theorem urlopen_eq_httpFail
    (ks : Option (String → Option Credentials))
    (loginEnv : Challenge → Option Credentials → Except PyErr Credentials)
    (net : Nat → NetOutcome) (code : Nat) (h : net 0 = .httpFail code) :
    ImageFormatDockerRegistry.urlopenModel ks loginEnv net =
      (.error (.httpError code), ⟨1, 0⟩) := by
  unfold ImageFormatDockerRegistry.urlopenModel
  rw [h]

/-- Equation lemma: a Bearer challenge on the first request hands over to the
authentication-and-retry path. -/
theorem urlopen_eq_challenge
    (ks : Option (String → Option Credentials))
    (loginEnv : Challenge → Option Credentials → Except PyErr Credentials)
    (net : Nat → NetOutcome) (ch : Challenge) (h : net 0 = .bearer401 ch) :
    ImageFormatDockerRegistry.urlopenModel ks loginEnv net =
      ImageFormatDockerRegistry.afterChallenge ks loginEnv net ch := by
  unfold ImageFormatDockerRegistry.urlopenModel
  rw [h]

/-- Equation lemma: a failing authentication block ends the operation with
its error after the single original request. -/
theorem afterChallenge_eq_error
    (ks : Option (String → Option Credentials))
    (loginEnv : Challenge → Option Credentials → Except PyErr Credentials)
    (net : Nat → NetOutcome) (ch : Challenge) (e : PyErr) (n : Nat)
    (hA : ImageFormatDockerRegistry.authenticateStep ks loginEnv ch = (.error e, n)) :
    ImageFormatDockerRegistry.afterChallenge ks loginEnv net ch = (.error e, ⟨1, n⟩) := by
  unfold ImageFormatDockerRegistry.afterChallenge
  rw [hA]

/-- Equation lemma: a successful authentication block hands over to the
single retry. -/
theorem afterChallenge_eq_ok
    (ks : Option (String → Option Credentials))
    (loginEnv : Challenge → Option Credentials → Except PyErr Credentials)
    (net : Nat → NetOutcome) (ch : Challenge) (cr : Credentials) (n : Nat)
    (hA : ImageFormatDockerRegistry.authenticateStep ks loginEnv ch = (.ok cr, n)) :
    ImageFormatDockerRegistry.afterChallenge ks loginEnv net ch =
      ImageFormatDockerRegistry.retryStep net n := by
  unfold ImageFormatDockerRegistry.afterChallenge
  rw [hA]

/-- Claim C3: for every keystore, login environment and network behaviour,
one logical registry operation through `_urlopen` issues at most two
registry requests (the original plus at most one retry) and at most one
token exchange; and whenever both the original request and the retry come
back as Bearer 401 challenges, the operation ends in an error — there is no
further retry loop. -/
theorem registryAuth_singleRetry
    (ks : Option (String → Option Credentials))
    (loginEnv : Challenge → Option Credentials → Except PyErr Credentials)
    (net : Nat → NetOutcome) :
    (ImageFormatDockerRegistry.urlopenModel ks loginEnv net).2.requests ≤ 2 ∧
    (ImageFormatDockerRegistry.urlopenModel ks loginEnv net).2.tokenExchanges ≤ 1 ∧
    (∀ ch ch2, net 0 = .bearer401 ch → net 1 = .bearer401 ch2 →
      ∃ e, (ImageFormatDockerRegistry.urlopenModel ks loginEnv net).1 = .error e) := by
  cases h0 : net 0 with
  | success =>
    rw [urlopen_eq_success ks loginEnv net h0]
    refine ⟨(by decide : (1 : Nat) ≤ 2), (by decide : (0 : Nat) ≤ 1), ?_⟩
    intro ch ch2 hc _
    exact absurd hc (by simp)
  | httpFail code =>
    rw [urlopen_eq_httpFail ks loginEnv net code h0]
    refine ⟨(by decide : (1 : Nat) ≤ 2), (by decide : (0 : Nat) ≤ 1), ?_⟩
    intro ch ch2 hc _
    exact absurd hc (by simp)
  | bearer401 ch =>
    rw [urlopen_eq_challenge ks loginEnv net ch h0]
    have hn := authenticateStep_exchanges_le_one ks loginEnv ch
    cases hA : ImageFormatDockerRegistry.authenticateStep ks loginEnv ch with
    | mk res n =>
      rw [hA] at hn
      cases res with
      | error e =>
        rw [afterChallenge_eq_error ks loginEnv net ch e n hA]
        exact ⟨(by decide : (1 : Nat) ≤ 2), hn, fun _ _ _ _ => ⟨e, rfl⟩⟩
      | ok cr =>
        rw [afterChallenge_eq_ok ks loginEnv net ch cr n hA]
        unfold ImageFormatDockerRegistry.retryStep
        cases h1 : net 1 with
        | success =>
          refine ⟨(by decide : (2 : Nat) ≤ 2), hn, ?_⟩
          intro ch' ch2 _ hc2
          exact absurd hc2 (by simp)
        | httpFail code =>
          exact ⟨(by decide : (2 : Nat) ≤ 2), hn, fun _ _ _ _ => ⟨.httpError code, rfl⟩⟩
        | bearer401 ch2 =>
          exact ⟨(by decide : (2 : Nat) ≤ 2), hn, fun _ _ _ _ => ⟨.authRequired ch2, rfl⟩⟩

/-- Witness for `registryAuth_singleRetry` on a concrete double-401 network:
the request counter stays at two and the operation errors out. -/
theorem registryAuth_singleRetry_witness :
    (ImageFormatDockerRegistry.urlopenModel none loginAlwaysOk netDouble401).2.requests ≤ 2 ∧
    ∃ e, (ImageFormatDockerRegistry.urlopenModel none loginAlwaysOk netDouble401).1 =
      .error e := by
  have h := registryAuth_singleRetry none loginAlwaysOk netDouble401
  exact ⟨h.1, h.2.2 exampleChallenge exampleChallenge2 rfl rfl⟩

/-- Claim C4 counterexample: with no stored credentials, a successful
anonymous token exchange and a second Bearer 401 on the retried request, the
`AuthenticationRequired` raised by the retry is NOT caught inside `_urlopen`
(the second `urllib.request.urlopen` at oci.py line 1195 sits outside the
`try`/`except`), so the caller observes `AuthenticationRequired` — not one of
`ImageLoadError`, `ImageSaveError`, `LoginError` or an HTTP error. -/
theorem authRequired_reaches_caller :
    (ImageFormatDockerRegistry.urlopenModel none loginAlwaysOk netDouble401).1 =
      .error (.authRequired exampleChallenge2) := rfl

/-- Claim C4 (amended): `AuthenticationRequired` from the FIRST request of a
logical operation is always caught inside `_urlopen` to drive the single
retry; the exception reaches the caller only when the Bearer challenge
recurs, either because the retried request itself receives a Bearer 401
(after two requests) or because the token-exchange GET performed by
`doLoginDocker` receives one (after one request) — and in both cases no
further retry happens. -/
theorem authRequired_escape_characterization
    (ks : Option (String → Option Credentials))
    (loginEnv : Challenge → Option Credentials → Except PyErr Credentials)
    (net : Nat → NetOutcome) (c : Challenge)
    (h : (ImageFormatDockerRegistry.urlopenModel ks loginEnv net).1 =
      .error (.authRequired c)) :
    ∃ ch, net 0 = .bearer401 ch ∧
      (((ImageFormatDockerRegistry.authenticateStep ks loginEnv ch).1 =
          .error (.authRequired c) ∧
        (ImageFormatDockerRegistry.urlopenModel ks loginEnv net).2.requests = 1) ∨
       ((∃ cr, (ImageFormatDockerRegistry.authenticateStep ks loginEnv ch).1 = .ok cr) ∧
        net 1 = .bearer401 c ∧
        (ImageFormatDockerRegistry.urlopenModel ks loginEnv net).2.requests = 2)) := by
  cases h0 : net 0 with
  | success =>
    rw [urlopen_eq_success ks loginEnv net h0] at h
    exact absurd h (by simp)
  | httpFail code =>
    rw [urlopen_eq_httpFail ks loginEnv net code h0] at h
    exact absurd h (by simp)
  | bearer401 ch =>
    have hu := urlopen_eq_challenge ks loginEnv net ch h0
    rw [hu] at h
    refine ⟨ch, rfl, ?_⟩
    cases hA : ImageFormatDockerRegistry.authenticateStep ks loginEnv ch with
    | mk res n =>
      cases res with
      | error e =>
        have heq := afterChallenge_eq_error ks loginEnv net ch e n hA
        rw [heq] at h
        have h' : e = .authRequired c := by simpa using h
        refine Or.inl ⟨?_, ?_⟩
        · rw [h']
        · rw [hu, heq]
      | ok cr =>
        have heq := afterChallenge_eq_ok ks loginEnv net ch cr n hA
        rw [heq] at h
        unfold ImageFormatDockerRegistry.retryStep at h
        cases h1 : net 1 with
        | success =>
          rw [h1] at h
          exact absurd h (by simp)
        | httpFail code =>
          rw [h1] at h
          exact absurd h (by simp)
        | bearer401 ch2 =>
          rw [h1] at h
          have h' : ch2 = c := by simpa using h
          refine Or.inr ⟨⟨cr, rfl⟩, by rw [h'], ?_⟩
          rw [hu, heq]
          unfold ImageFormatDockerRegistry.retryStep
          rw [h1]

/-- Witness for `authRequired_escape_characterization` on the concrete
double-401 network: the escape happened via the second Bearer 401 on the
retried request. -/
theorem authRequired_escape_characterization_witness :
    ∃ ch, netDouble401 0 = .bearer401 ch ∧
      (((ImageFormatDockerRegistry.authenticateStep none loginAlwaysOk ch).1 =
          .error (.authRequired exampleChallenge2) ∧
        (ImageFormatDockerRegistry.urlopenModel none loginAlwaysOk netDouble401).2.requests = 1) ∨
       ((∃ cr, (ImageFormatDockerRegistry.authenticateStep none loginAlwaysOk ch).1 = .ok cr) ∧
        netDouble401 1 = .bearer401 exampleChallenge2 ∧
        (ImageFormatDockerRegistry.urlopenModel none loginAlwaysOk netDouble401).2.requests = 2)) :=
  authRequired_escape_characterization none loginAlwaysOk netDouble401 exampleChallenge2 rfl

/-- Claim C6: the directory transport's `load()` can never succeed: after the
`version` file parses, line 1227 calls
`self.parseManifest(f, missingMediaTypeOK = True)`, but the inherited
`ImageFormat.parseManifest(self, f)` declares no such keyword parameter, so
Python raises `TypeError` before the manifest is parsed — in particular a
`manifest.json` without a media type is never reached, and the save/load
round trip cannot complete.  The second conjunct evaluates `load` on a
directory whose `version` file is well-formed. -/
theorem dirLoad_missingKwarg_typeError :
    (∀ dir : DirState, ∃ e, ImageFormatDir.loadModel dir = .error e) ∧
    ImageFormatDir.loadModel
        ⟨some ("Directory Transport Version: 1.1"), some ⟨none, some 2, true, true⟩⟩ =
      .error (.typeError ("parseManifest() got an unexpected keyword argument")) := by
  constructor
  · intro dir
    obtain ⟨vf, mj⟩ := dir
    cases vf with
    | none => exact ⟨_, rfl⟩
    | some v =>
      simp only [ImageFormatDir.loadModel]
      cases hpv : ImageFormatDir.parseVersion v with
      | error e => exact ⟨e, rfl⟩
      | ok s =>
        cases mj with
        | none => exact ⟨_, rfl⟩
        | some m =>
          exact ⟨.typeError ("parseManifest() got an unexpected keyword argument"), rfl⟩
  · rfl

/-- Unfolding equation for one step of the `find` loop. -/
theorem findAux_cons (arch : Option String) (wc : Option Descriptor)
    (mf : Descriptor) (rest : List Descriptor) :
    ImageIndex.findAux arch wc (mf :: rest) =
      (match mf.platform with
       | none =>
         match wc with
         | some _ =>
           .error (.valueError ("Image index lists more than one descriptor without platform"))
         | none => ImageIndex.findAux arch (some mf) rest
       | some _ =>
         if mf.archMatches arch then .ok (some mf)
         else ImageIndex.findAux arch wc rest) := rfl

/-- Unfolding equation for `firstSuch` on a cons cell. -/
theorem firstSuch_cons (p : Descriptor → Bool) (d : Descriptor) (rest : List Descriptor) :
    firstSuch p (d :: rest) =
      (match p d with
       | true => some d
       | false => firstSuch p rest) := rfl

/-- A list with no wildcard has no first wildcard. -/
theorem firstSuch_wildcard_eq_none (ms : List Descriptor) (h : wildcardCount ms = 0) :
    firstSuch (fun d => d.isWildcard) ms = none := by
  induction ms with
  | nil => rfl
  | cons mf rest ih =>
    rw [wildcardCount, List.countP_cons] at h
    cases hmw : mf.isWildcard with
    | true =>
      rw [hmw] at h
      simp at h
    | false =>
      rw [firstSuch_cons, hmw]
      apply ih
      rw [hmw] at h
      simpa [wildcardCount] using h

/-- Characterization of the `find` loop when at most one wildcard is in
scope: the first architecture match is returned; otherwise the single
wildcard (from the list or the accumulator) if any. -/
theorem findAux_ok (arch : Option String) (ms : List Descriptor) :
    ∀ wc : Option Descriptor,
    wildcardCount ms + (if wc.isSome then 1 else 0) ≤ 1 →
    ImageIndex.findAux arch wc ms = .ok
      (match firstSuch (fun d => d.archMatches arch) ms with
       | some d => some d
       | none =>
         match firstSuch (fun d => d.isWildcard) ms with
         | some d => some d
         | none => wc) := by
  induction ms with
  | nil =>
    intro wc _
    rfl
  | cons mf rest ih =>
    intro wc h
    cases hp : mf.platform with
    | none =>
      have hw : mf.isWildcard = true := by
        simp [Descriptor.isWildcard, hp]
      have hcount : wildcardCount (mf :: rest) = wildcardCount rest + 1 := by
        simp [wildcardCount, List.countP_cons, hw]
      rw [hcount] at h
      cases wc with
      | some w => simp at h
      | none =>
        have hrest0 : wildcardCount rest = 0 := by
          simp at h
          omega
        have ham : mf.archMatches arch = false := by
          simp [Descriptor.archMatches, hp]
        rw [findAux_cons, hp]
        rw [ih (some mf) (by simp [hrest0])]
        rw [firstSuch_cons, ham, firstSuch_cons, hw,
            firstSuch_wildcard_eq_none rest hrest0]
    | some p =>
      have hw : mf.isWildcard = false := by
        simp [Descriptor.isWildcard, hp]
      have hcount : wildcardCount (mf :: rest) = wildcardCount rest := by
        simp [wildcardCount, List.countP_cons, hw]
      rw [hcount] at h
      cases ham : mf.archMatches arch with
      | true =>
        rw [findAux_cons, hp]
        rw [firstSuch_cons, ham]
        simp [ham]
      | false =>
        rw [findAux_cons, hp]
        rw [firstSuch_cons, ham, firstSuch_cons, hw]
        simp only [ham, Bool.false_eq_true, if_false]
        exact ih wc h

/-- When no descriptor matches the requested architecture and two or more
wildcards are in scope, the `find` loop raises. -/
theorem findAux_error (arch : Option String) (ms : List Descriptor) :
    ∀ wc : Option Descriptor,
    (∀ d ∈ ms, d.archMatches arch = false) →
    2 ≤ wildcardCount ms + (if wc.isSome then 1 else 0) →
    ∃ e, ImageIndex.findAux arch wc ms = .error e := by
  induction ms with
  | nil =>
    intro wc _ h2
    exfalso
    cases wc <;> simp [wildcardCount] at h2
  | cons mf rest ih =>
    intro wc hno h2
    cases hp : mf.platform with
    | none =>
      cases wc with
      | some w =>
        refine ⟨.valueError ("Image index lists more than one descriptor without platform"), ?_⟩
        rw [findAux_cons, hp]
      | none =>
        have hw : mf.isWildcard = true := by
          simp [Descriptor.isWildcard, hp]
        rw [findAux_cons, hp]
        apply ih (some mf)
        · intro d hd
          exact hno d (List.mem_cons_of_mem _ hd)
        · have hcount : wildcardCount (mf :: rest) = wildcardCount rest + 1 := by
            simp [wildcardCount, List.countP_cons, hw]
          rw [hcount] at h2
          simpa using h2
    | some p =>
      have ham : mf.archMatches arch = false := hno mf (List.mem_cons_self _ _)
      rw [findAux_cons, hp]
      simp only [ham, Bool.false_eq_true, if_false]
      apply ih wc
      · intro d hd
        exact hno d (List.mem_cons_of_mem _ hd)
      · have hw : mf.isWildcard = false := by
          simp [Descriptor.isWildcard, hp]
        have hcount : wildcardCount (mf :: rest) = wildcardCount rest := by
          simp [wildcardCount, List.countP_cons, hw]
        rw [hcount] at h2
        exact h2

/-- Claim C2 (amended): with at most one wildcard descriptor, `find` returns
the FIRST descriptor whose platform architecture matches — duplicate
architectures are not detected and raise no error (the first match wins),
and a wildcard never shadows a match; the wildcard is returned only when no
architecture match exists; when no descriptor matches and two or more
wildcards are present, `find` raises; and `pickManifestFromIndex` returns
exactly `find`'s result (its `desc.isManifest` check reads a bound method —
always truthy — so it never rejects a descriptor). -/
theorem index_find_characterization (idx : ImageIndex) (arch : Option String) :
    (wildcardCount idx.manifests ≤ 1 →
      idx.find arch = .ok
        (match firstSuch (fun d => d.archMatches arch) idx.manifests with
         | some d => some d
         | none => firstSuch (fun d => d.isWildcard) idx.manifests)) ∧
    ((∀ d ∈ idx.manifests, d.archMatches arch = false) →
      2 ≤ wildcardCount idx.manifests →
      ∃ e, idx.find arch = .error e) ∧
    (∀ a : String, arch = some a →
      ImageFormat.pickManifestFromIndex idx a = idx.find arch) := by
  refine ⟨?_, ?_, ?_⟩
  · intro h
    unfold ImageIndex.find
    rw [findAux_ok arch idx.manifests none (by simpa using h)]
    cases hm : firstSuch (fun d => d.archMatches arch) idx.manifests with
    | some d => rfl
    | none =>
      cases hw : firstSuch (fun d => d.isWildcard) idx.manifests <;> rfl
  · intro hno h2
    unfold ImageIndex.find
    exact findAux_error arch idx.manifests none hno (by simpa using h2)
  · intro a ha
    subst ha
    unfold ImageFormat.pickManifestFromIndex
    cases hf : idx.find (some a) with
    | error e => rfl
    | ok o => cases o <;> rfl

/-- Claim C2 counterexample: an index in which two descriptors list the same
architecture (`amd64`) is not an error — `find` returns the first match. -/
theorem find_duplicateArchitecture_noError :
    ImageIndex.find
        ⟨2, none, [manifestDescFor ("sha256:aa") ("amd64"),
                   manifestDescFor ("sha256:bb") ("amd64")]⟩ (some ("amd64")) =
      .ok (some (manifestDescFor ("sha256:aa") ("amd64"))) := by
  decide

/-- Witness for `index_find_characterization`: with one wildcard and one
`amd64` descriptor, `find` returns the architecture match. -/
theorem index_find_characterization_witness :
    ImageIndex.find
        ⟨2, none, [wildcardDescFor ("sha256:ww"),
                   manifestDescFor ("sha256:cc") ("amd64")]⟩ (some ("amd64")) =
      .ok (some (manifestDescFor ("sha256:cc") ("amd64"))) := by
  have h := (index_find_characterization
    ⟨2, none, [wildcardDescFor ("sha256:ww"),
               manifestDescFor ("sha256:cc") ("amd64")]⟩ (some ("amd64"))).1 (by decide)
  exact h.trans (by decide)

/-- The head of a non-empty `dropWhile` result fails the predicate. -/
theorem dropWhile_head_false (p : Char → Bool) :
    ∀ (l : List Char) (a : Char) (as : List Char),
    l.dropWhile p = a :: as → p a = false := by
  intro l
  induction l with
  | nil =>
    intro a as h
    simp at h
  | cons x xs ih =>
    intro a as h
    rw [List.dropWhile_cons] at h
    by_cases hx : p x = true
    · rw [if_pos hx] at h
      exact ih a as h
    · rw [if_neg hx] at h
      injection h with h1 _
      subst h1
      simpa using hx

/-- Inversion of a successful `rsplit(c, 1)`: the tag part carries no
occurrence of the separator and the two parts reassemble the input. -/
theorem pyRsplit_some (c : Char) (s : String) (n t : String)
    (h : pyRsplitOnceChar c s = some (n, t)) :
    (∀ x ∈ t.toList, x ≠ c) ∧ n.toList ++ c :: t.toList = s.toList := by
  unfold pyRsplitOnceChar at h
  cases hd : s.toList.reverse.dropWhile (fun x => x ≠ c) with
  | nil =>
    rw [hd] at h
    simp at h
  | cons x beforeRev =>
    rw [hd] at h
    simp only [Option.some.injEq, Prod.mk.injEq] at h
    obtain ⟨hn, ht⟩ := h
    have hx : x = c := by
      have := dropWhile_head_false (fun y => y ≠ c) _ x beforeRev hd
      simpa using this
    rw [hx] at hd
    constructor
    · intro y hy
      rw [← ht] at hy
      simp only [String.toList] at hy
      rw [List.mem_reverse] at hy
      have := List.mem_takeWhile_imp hy
      simpa using this
    · have hsplit : s.toList.reverse.takeWhile (fun y => y ≠ c) ++ (c :: beforeRev)
          = s.toList.reverse := by
        rw [← hd]
        exact List.takeWhile_append_dropWhile _ _
      have hl : s.toList =
          (s.toList.reverse.takeWhile (fun y => y ≠ c) ++ (c :: beforeRev)).reverse := by
        rw [hsplit, List.reverse_reverse]
      rw [hl, ← hn, ← ht]
      simp

/-- `tryThisURL` succeeds when the parsed netloc is non-empty and resolves. -/
theorem tryThisURL_resolved (resolves : String → Bool) (path netloc rest : String)
    (hu : urlparseNetlocPath path = (netloc, rest))
    (hne : netloc.toList ≠ [])
    (hr : resolves netloc = true) :
    ImageReference.tryThisURL resolves path = some ⟨netloc, rest⟩ := by
  unfold ImageReference.tryThisURL
  rw [hu]
  show (if netloc.toList = [] then none
        else if resolves netloc = true then some (⟨netloc, rest⟩ : URLParts) else none) =
    some (⟨netloc, rest⟩ : URLParts)
  rw [if_neg hne, hr, if_pos rfl]

/-- `tryThisURL` fails when the parsed netloc does not resolve. -/
theorem tryThisURL_unresolved (resolves : String → Bool) (path netloc rest : String)
    (hu : urlparseNetlocPath path = (netloc, rest))
    (hr : resolves netloc = false) :
    ImageReference.tryThisURL resolves path = none := by
  unfold ImageReference.tryThisURL
  rw [hu]
  show (if netloc.toList = [] then none
        else if resolves netloc = true then some (⟨netloc, rest⟩ : URLParts) else none) = none
  by_cases h : netloc.toList = []
  · rw [if_pos h]
  · rw [if_neg h, hr, if_neg (by simp)]

/-- `tryThisURL` fails when the string parses without a netloc. -/
theorem tryThisURL_emptyNetloc (resolves : String → Bool) (path rest : String)
    (hu : urlparseNetlocPath path = ("", rest)) :
    ImageReference.tryThisURL resolves path = none := by
  unfold ImageReference.tryThisURL
  rw [hu]
  show (if ("" : String).toList = [] then none
        else if resolves "" = true then some (⟨"", rest⟩ : URLParts) else none) = none
  rw [if_pos (show ("" : String).toList = [] from rfl)]

/-- `guessURL` equation: the second variant (`"//" + path`) wins. -/
theorem guessURL_second (resolves : String → Bool) (path : String) (u : URLParts)
    (hv1 : ImageReference.tryThisURL resolves path = none)
    (hv2 : ImageReference.tryThisURL resolves (("//") ++ path) = some u) :
    ImageReference.guessURL resolves path = .ok u := by
  unfold ImageReference.guessURL
  rw [hv1, hv2]

/-- `guessURL` equation: the default-registry variant wins. -/
theorem guessURL_third (resolves : String → Bool) (path : String) (u : URLParts)
    (hv1 : ImageReference.tryThisURL resolves path = none)
    (hv2 : ImageReference.tryThisURL resolves (("//") ++ path) = none)
    (hv3 : ImageReference.tryThisURL resolves
      (ImageFormatFactory.defaultRegistryURL ++ ("/") ++ path) = some u) :
    ImageReference.guessURL resolves path = .ok u := by
  unfold ImageReference.guessURL
  rw [hv1, hv2, hv3]

/-- Claim C8 (amended): under any DNS oracle where `myregistry.example.com`
resolves, parsing `myregistry.example.com/team/app:v2` yields registry
`myregistry.example.com`, name `team/app`, tag `v2`.  Under any oracle where
the bare name `app` does NOT resolve as a host but the default registry does,
parsing `app` yields registry `registry.opensuse.org` (the default registry
host, NOT `localhost` — `parse` always passes the resolved netloc, which is
never empty, so the `localhost` default is unreachable from `parse`); the
`localhost` default applies only when a reference is constructed directly
with an empty or missing registry.  For every constructed reference the tag
is split out at the last colon and never remains inside `name`. -/
theorem imageReference_parse_characterization
    (resolves : String → Bool)
    (h1 : resolves ("myregistry.example.com") = true)
    (h2 : resolves ("app") = false)
    (h3 : resolves ("registry.opensuse.org") = true) :
    ImageReference.parse resolves ("myregistry.example.com/team/app:v2") =
      .ok ⟨"myregistry.example.com", "team/app", "v2", "amd64"⟩ ∧
    ImageReference.parse resolves ("app") =
      .ok ⟨"registry.opensuse.org", "app", "latest", "amd64"⟩ ∧
    ImageReference.init none ("app") = ⟨"localhost", "app", "latest", "amd64"⟩ ∧
    (∀ (registry : Option String) (rawName : String),
      tagSplitInvariant (ImageReference.init registry rawName) rawName) := by
  refine ⟨?_, ?_, by decide, ?_⟩
  · have hv1 : ImageReference.tryThisURL resolves ("myregistry.example.com/team/app:v2") = none :=
      tryThisURL_emptyNetloc resolves ("myregistry.example.com/team/app:v2")
        ("myregistry.example.com/team/app:v2") (by decide)
    have hv2 : ImageReference.tryThisURL resolves ("//myregistry.example.com/team/app:v2") =
        some ⟨"myregistry.example.com", "/team/app:v2"⟩ :=
      tryThisURL_resolved resolves ("//myregistry.example.com/team/app:v2")
        ("myregistry.example.com") ("/team/app:v2") (by decide) (by decide) h1
    unfold ImageReference.parse
    rw [guessURL_second resolves ("myregistry.example.com/team/app:v2")
      (⟨"myregistry.example.com", "/team/app:v2"⟩ : URLParts) hv1 hv2]
    decide
  · have hv1 : ImageReference.tryThisURL resolves ("app") = none :=
      tryThisURL_emptyNetloc resolves ("app") ("app") (by decide)
    have hv2 : ImageReference.tryThisURL resolves ("//app") = none :=
      tryThisURL_unresolved resolves ("//app") ("app") ("") (by decide) h2
    have hv3 : ImageReference.tryThisURL resolves
        (ImageFormatFactory.defaultRegistryURL ++ ("/") ++ ("app")) =
        some ⟨"registry.opensuse.org", "/app"⟩ :=
      tryThisURL_resolved resolves (ImageFormatFactory.defaultRegistryURL ++ ("/") ++ ("app"))
        ("registry.opensuse.org") ("/app") (by decide) (by decide) h3
    unfold ImageReference.parse
    rw [guessURL_third resolves ("app") (⟨"registry.opensuse.org", "/app"⟩ : URLParts)
      hv1 hv2 hv3]
    decide
  · intro registry rawName
    unfold tagSplitInvariant ImageReference.init
    cases hs : pyRsplitOnceChar ':' rawName with
    | none =>
      exact ⟨(by decide : ':' ∉ ("latest").toList), rfl, rfl⟩
    | some nt =>
      obtain ⟨n, t⟩ := nt
      obtain ⟨hmem, hrec⟩ := pyRsplit_some ':' rawName n t hs
      exact ⟨fun hx => hmem ':' hx rfl, rfl, rfl, hrec⟩

/-- Claim C8 counterexample: parsing the bare string `app` under a DNS
oracle where `app` does not resolve yields registry `registry.opensuse.org`,
not the claimed `localhost`. -/
theorem parse_app_not_localhost :
    ImageReference.parse exampleDNS ("app") =
      .ok ⟨"registry.opensuse.org", "app", "latest", "amd64"⟩ ∧
    ImageReference.parse exampleDNS ("app") ≠
      .ok ⟨"localhost", "app", "latest", "amd64"⟩ := by
  constructor
  · decide
  · decide

/-- Witness for `imageReference_parse_characterization` under the concrete
oracle `exampleDNS`. -/
theorem imageReference_parse_characterization_witness :
    ImageReference.parse exampleDNS ("myregistry.example.com/team/app:v2") =
      .ok ⟨"myregistry.example.com", "team/app", "v2", "amd64"⟩ ∧
    tagSplitInvariant (ImageReference.init (some "h") ("a:b:c")) ("a:b:c") := by
  have h := imageReference_parse_characterization exampleDNS rfl rfl rfl
  exact ⟨h.1, h.2.2.2 (some "h") ("a:b:c")⟩

/-- Unfolding equation for `LayerMap.get` on a cons cell. -/
theorem layerGet_cons (k : String) (l : LayerInfo) (rest : LayerMap) (dg : String) :
    LayerMap.get ((k, l) :: rest) dg =
      if k = dg then some l else LayerMap.get rest dg := rfl

/-- Unfolding equation for `LayerMap.set` on a cons cell. -/
theorem layerSet_cons (k : String) (old : LayerInfo) (rest : LayerMap)
    (dg : String) (l : LayerInfo) :
    LayerMap.set ((k, old) :: rest) dg l =
      if k = dg then (k, l) :: rest else (k, old) :: LayerMap.set rest dg l := rfl

/-- `add` on an empty map stores a fresh record. -/
theorem layerAdd_nil (g : Nat) (d r : Descriptor) :
    LayerMap.add ([] : LayerMap) g d r = .ok [(d.digest, ⟨g, d, r⟩)] := rfl

/-- `add` over an existing record with a strictly larger generation replaces
it (the `assert(generation < l.generation)` holds). -/
theorem layerAdd_cons_found (k : String) (old : LayerInfo) (rest : LayerMap)
    (g : Nat) (d r : Descriptor) (hk : k = d.digest) (hlt : g < old.generation) :
    LayerMap.add ((k, old) :: rest) g d r = .ok ((k, ⟨g, d, r⟩) :: rest) := by
  unfold LayerMap.add
  rw [layerGet_cons, if_pos hk]
  show (if g < old.generation then
          Except.ok (LayerMap.set ((k, old) :: rest) d.digest ⟨g, d, r⟩)
        else Except.error PyErr.assertionError) = Except.ok ((k, ⟨g, d, r⟩) :: rest)
  rw [if_pos hlt, layerSet_cons, if_pos hk]

/-- `skipExisting` on an empty map is false. -/
theorem skipExisting_nil (dg : String) (g : Nat) :
    LayerMap.skipExisting ([] : LayerMap) dg g = false := rfl

/-- `skipExisting` over a found record compares generations. -/
theorem skipExisting_cons_found (k : String) (l : LayerInfo) (rest : LayerMap)
    (dg : String) (g : Nat) (hk : k = dg) :
    LayerMap.skipExisting ((k, l) :: rest) dg g = decide (l.generation ≤ g) := by
  unfold LayerMap.skipExisting
  rw [layerGet_cons, if_pos hk]

/-- `addReferencedLayer` on a non-layer descriptor is a no-op. -/
theorem addRef_notLayer (uncomp : Descriptor → Except PyErr Descriptor)
    (m : LayerMap) (img : Image) (d : Descriptor) (hl : d.isImageLayer = false) :
    LayerMap.addReferencedLayer uncomp m img d = .ok m := by
  unfold LayerMap.addReferencedLayer
  rw [hl]
  rw [if_neg (by simp)]

/-- `addReferencedLayer` keeps the map when the recorded generation is not
above the new one. -/
theorem addRef_skip (uncomp : Descriptor → Except PyErr Descriptor)
    (m : LayerMap) (img : Image) (d : Descriptor)
    (hl : d.isImageLayer = true)
    (hskip : m.skipExisting d.digest img.layers.length = true) :
    LayerMap.addReferencedLayer uncomp m img d = .ok m := by
  unfold LayerMap.addReferencedLayer
  rw [hl, if_pos rfl, hskip, if_pos rfl]

/-- `addReferencedLayer` on an uncompressed layer that is not skipped: build
the external reference and store it. -/
theorem addRef_step (uncomp : Descriptor → Except PyErr Descriptor)
    (m : LayerMap) (img : Image) (d refDest : Descriptor) (mFinal : LayerMap)
    (hl : d.isImageLayer = true)
    (hskip : m.skipExisting d.digest img.layers.length = false)
    (hext : Descriptor.asExternalReference img d = .ok refDest)
    (hadd : m.add img.layers.length d refDest = .ok mFinal)
    (hcomp : d.isCompressed = false) :
    LayerMap.addReferencedLayer uncomp m img d = .ok mFinal := by
  unfold LayerMap.addReferencedLayer
  rw [hl, if_pos rfl, hskip, if_neg (by simp), hext]
  show (match m.add img.layers.length d refDest with
        | .error e => .error e
        | .ok m1 =>
          if d.isCompressed then
            match uncomp d with
            | .error (.imageLoadError _ _) => .ok m1
            | .error e => .error e
            | .ok newDesc => m1.add img.layers.length newDesc refDest
          else .ok m1) = Except.ok mFinal
  rw [hadd]
  show (if d.isCompressed then
          match uncomp d with
          | .error (.imageLoadError _ _) => .ok mFinal
          | .error e => .error e
          | .ok newDesc => mFinal.add img.layers.length newDesc refDest
        else .ok mFinal) = Except.ok mFinal
  rw [hcomp, if_neg (by simp)]

/-- A descriptor that classifies as an image layer with no compression parses
to exactly its vendor's layer media type. -/
theorem parse_of_isImageLayer {d : Descriptor}
    (hl : d.isImageLayer = true)
    (hc : (MediaType.parse d.mediaType).compression = none) :
    ∃ v, MediaType.parse d.mediaType = ⟨v.mimeTypeLayer, none, some v⟩ := by
  unfold Descriptor.isImageLayer Descriptor.parsedMediaType MediaType.isImageLayer at hl
  cases hv : (MediaType.parse d.mediaType).vendor with
  | none =>
    rw [hv] at hl
    simp at hl
  | some v =>
    rw [hv] at hl
    have hb : (MediaType.parse d.mediaType).baseMIMEType = v.mimeTypeLayer := by
      simpa using hl
    refine ⟨v, ?_⟩
    have heta : MediaType.parse d.mediaType =
        ⟨(MediaType.parse d.mediaType).baseMIMEType,
         (MediaType.parse d.mediaType).compression,
         (MediaType.parse d.mediaType).vendor⟩ := rfl
    rw [heta, hb, hc, hv]

/-- Parsing a vendor's foreign-layer media type recovers that vendor with no
compression. -/
theorem parse_layerExternal (v : Vendor) :
    MediaType.parse v.mimeTypeLayerExternal =
      ⟨v.mimeTypeLayerExternal, none, some v⟩ := by
  cases v <;> decide

/-- `makeExternalReference` on an uncompressed layer descriptor rewrites the
media type to the vendor's foreign-layer type. -/
theorem makeExternalReference_of_layer {d : Descriptor} {v : Vendor}
    (hm : MediaType.parse d.mediaType = ⟨v.mimeTypeLayer, none, some v⟩) :
    d.makeExternalReference = .ok { d with mediaType := v.mimeTypeLayerExternal } := by
  unfold Descriptor.makeExternalReference Descriptor.parsedMediaType
  rw [hm]
  have hml : MediaType.makeExternalReference ⟨v.mimeTypeLayer, none, some v⟩ =
      .ok ⟨v.mimeTypeLayerExternal, none, some v⟩ := by
    unfold MediaType.makeExternalReference
    simp [MediaType.isImageLayer]
  rw [hml]
  rfl

/-- `asExternalReference` on an uncompressed layer descriptor: rewrite the
media type and append the loader's blob URL. -/
theorem asExternalReference_of_layer (img : Image) {d : Descriptor} {v : Vendor}
    (hm : MediaType.parse d.mediaType = ⟨v.mimeTypeLayer, none, some v⟩) :
    Descriptor.asExternalReference img d =
      .ok { d with mediaType := v.mimeTypeLayerExternal,
                   urls := d.urls ++ [img.blobURLof d.digest] } := by
  unfold Descriptor.asExternalReference
  rw [makeExternalReference_of_layer hm]
  rfl

/-- The external reference keeps the layer's digest and vendor. -/
theorem extRef_sameVendor (img : Image) {d : Descriptor} {v : Vendor}
    (hm : MediaType.parse d.mediaType = ⟨v.mimeTypeLayer, none, some v⟩)
    (r : Descriptor) (hr : Descriptor.asExternalReference img d = .ok r) :
    r.sameVendor d.vendor = true ∧ r.digest = d.digest := by
  rw [asExternalReference_of_layer img hm] at hr
  injection hr with h
  rw [← h]
  constructor
  · unfold Descriptor.sameVendor Descriptor.vendor Descriptor.parsedMediaType
    show ((MediaType.parse v.mimeTypeLayerExternal).vendor ==
      (MediaType.parse d.mediaType).vendor) = true
    rw [parse_layerExternal, hm]
    simp
  · rfl

/-- `getReference` over a found record whose reference already has the
caller's vendor returns the stored reference unchanged. -/
theorem getReference_cons_found (k : String) (l : LayerInfo) (rest : LayerMap)
    (d : Descriptor) (hk : k = d.digest)
    (hv : l.reference.sameVendor d.vendor = true) :
    LayerMap.getReference ((k, l) :: rest) d = .ok (some l.reference) := by
  unfold LayerMap.getReference
  rw [layerGet_cons, if_pos hk]
  show (if l.reference.sameVendor d.vendor then Except.ok (some l.reference)
        else match l.reference.asVendorOpt d.vendor with
             | .error e => .error e
             | .ok r => .ok (some r)) = Except.ok (some l.reference)
  rw [hv, if_pos rfl]

/-- Claim C7: when the same (uncompressed image-layer) digest is recorded
from image `A` and image `B` with `A` having fewer layers (lower generation),
the record with the lowest generation is kept, so `getReference` for that
digest returns the external reference built from `A` — regardless of the
order in which the two images were indexed. -/
theorem layerMap_lowest_generation_wins
    (uncomp : Descriptor → Except PyErr Descriptor)
    (A B : Image) (dA dB : Descriptor) (refA : Descriptor)
    (hdig : dB.digest = dA.digest)
    (hgen : A.layers.length < B.layers.length)
    (hlA : dA.isImageLayer = true)
    (hcA : (MediaType.parse dA.mediaType).compression = none)
    (hlB : dB.isImageLayer = true)
    (hcB : (MediaType.parse dB.mediaType).compression = none)
    (hextA : Descriptor.asExternalReference A dA = .ok refA) :
    ∃ mAB mBA,
      (LayerMap.addReferencedLayer uncomp ([] : LayerMap) A dA).bind
        (fun m1 => LayerMap.addReferencedLayer uncomp m1 B dB) = .ok mAB ∧
      (LayerMap.addReferencedLayer uncomp ([] : LayerMap) B dB).bind
        (fun m2 => LayerMap.addReferencedLayer uncomp m2 A dA) = .ok mBA ∧
      LayerMap.getReference mAB dA = .ok (some refA) ∧
      LayerMap.getReference mBA dA = .ok (some refA) := by
  obtain ⟨vA, hmA⟩ := parse_of_isImageLayer hlA hcA
  obtain ⟨vB, hmB⟩ := parse_of_isImageLayer hlB hcB
  have hcompA : dA.isCompressed = false := by
    unfold Descriptor.isCompressed Descriptor.parsedMediaType
    rw [hmA]
    rfl
  have hcompB : dB.isCompressed = false := by
    unfold Descriptor.isCompressed Descriptor.parsedMediaType
    rw [hmB]
    rfl
  obtain ⟨hsameA, _⟩ := extRef_sameVendor A hmA refA hextA
  have hextB := asExternalReference_of_layer B hmB
  -- Order A then B: B's record is skipped because its generation is higher.
  have hstep1 : LayerMap.addReferencedLayer uncomp ([] : LayerMap) A dA =
      .ok [(dA.digest, ⟨A.layers.length, dA, refA⟩)] :=
    addRef_step uncomp ([] : LayerMap) A dA refA _ hlA
      (skipExisting_nil _ _) hextA (layerAdd_nil _ _ _) hcompA
  have hskip2 : LayerMap.skipExisting [(dA.digest, ⟨A.layers.length, dA, refA⟩)]
      dB.digest B.layers.length = true := by
    rw [skipExisting_cons_found dA.digest _ ([] : LayerMap) dB.digest _ hdig.symm]
    exact decide_eq_true (Nat.le_of_lt hgen)
  have hstep2 : LayerMap.addReferencedLayer uncomp
      [(dA.digest, ⟨A.layers.length, dA, refA⟩)] B dB =
      .ok [(dA.digest, ⟨A.layers.length, dA, refA⟩)] :=
    addRef_skip uncomp _ B dB hlB hskip2
  -- Order B then A: A's record replaces B's (lower generation wins).
  have hstep3 : LayerMap.addReferencedLayer uncomp ([] : LayerMap) B dB =
      .ok [(dB.digest, ⟨B.layers.length, dB,
        {dB with mediaType := vB.mimeTypeLayerExternal,
                 urls := dB.urls ++ [B.blobURLof dB.digest]}⟩)] :=
    addRef_step uncomp ([] : LayerMap) B dB _ _ hlB
      (skipExisting_nil _ _) hextB (layerAdd_nil _ _ _) hcompB
  have hskip4 : LayerMap.skipExisting [(dB.digest, ⟨B.layers.length, dB,
      {dB with mediaType := vB.mimeTypeLayerExternal,
               urls := dB.urls ++ [B.blobURLof dB.digest]}⟩)]
      dA.digest A.layers.length = false := by
    rw [skipExisting_cons_found dB.digest _ ([] : LayerMap) dA.digest _ hdig]
    exact decide_eq_false (Nat.not_le.mpr hgen)
  have hadd4 : LayerMap.add [(dB.digest, ⟨B.layers.length, dB,
      {dB with mediaType := vB.mimeTypeLayerExternal,
               urls := dB.urls ++ [B.blobURLof dB.digest]}⟩)]
      A.layers.length dA refA = .ok [(dB.digest, ⟨A.layers.length, dA, refA⟩)] :=
    layerAdd_cons_found dB.digest _ ([] : LayerMap) A.layers.length dA refA hdig hgen
  have hstep4 : LayerMap.addReferencedLayer uncomp
      [(dB.digest, ⟨B.layers.length, dB,
        {dB with mediaType := vB.mimeTypeLayerExternal,
                 urls := dB.urls ++ [B.blobURLof dB.digest]}⟩)] A dA =
      .ok [(dB.digest, ⟨A.layers.length, dA, refA⟩)] :=
    addRef_step uncomp _ A dA refA _ hlA hskip4 hextA hadd4 hcompA
  refine ⟨[(dA.digest, ⟨A.layers.length, dA, refA⟩)],
          [(dB.digest, ⟨A.layers.length, dA, refA⟩)], ?_, ?_, ?_, ?_⟩
  · rw [hstep1]
    exact hstep2
  · rw [hstep3]
    exact hstep4
  · exact getReference_cons_found dA.digest ⟨A.layers.length, dA, refA⟩ ([] : LayerMap)
      dA rfl hsameA
  · exact getReference_cons_found dB.digest ⟨A.layers.length, dA, refA⟩ ([] : LayerMap)
      dA hdig hsameA

/-- Witness for `layerMap_lowest_generation_wins` on concrete one-layer and
two-layer images sharing a digest. -/
theorem layerMap_lowest_generation_wins_witness :
    ∃ mAB mBA,
      (LayerMap.addReferencedLayer uncompFails ([] : LayerMap) exampleImageA exampleLayerA).bind
        (fun m1 => LayerMap.addReferencedLayer uncompFails m1 exampleImageB exampleLayerB) =
        .ok mAB ∧
      (LayerMap.addReferencedLayer uncompFails ([] : LayerMap) exampleImageB exampleLayerB).bind
        (fun m2 => LayerMap.addReferencedLayer uncompFails m2 exampleImageA exampleLayerA) =
        .ok mBA ∧
      LayerMap.getReference mAB exampleLayerA = .ok (some exampleExternalRef) ∧
      LayerMap.getReference mBA exampleLayerA = .ok (some exampleExternalRef) :=
  layerMap_lowest_generation_wins uncompFails exampleImageA exampleImageB
    exampleLayerA exampleLayerB exampleExternalRef rfl (by decide) (by decide) rfl
    (by decide) rfl rfl
